import Mathlib

/-!
Verification of the Command Execution & File-Scoping Subsystem of the
`gemini-cli-mcp` repository (`src/gemini_mcp/tools.py`), via a shallow
embedding in Lean 4.

Modelling conventions:
* Filesystem paths are modelled as lists of path segments (the parts of an
  absolute path after the root).  Python's `Path(p).resolve()` — which
  consults the OS to resolve symlinks and `..` — is modelled as an oracle
  `resolve : String → Option (List String)` giving the resolved segment list
  of a raw path string (`none` models resolution raising an exception).
* Python exceptions are modelled by `PyError`: an exception class
  (`PyExc`) plus the message string built exactly as in the source.
* The mutable world (temporary files created by `tempfile.mkstemp`,
  their contents, `os.remove`) is threaded explicitly as a `World` value;
  fresh temp-file names are drawn from a counter `nextTemp`.
* The nondeterministic environment (resolution results, `Path.exists`,
  I/O failures during the write/read-back of the temp listing, whether
  `os.remove` succeeds, and the external process's exit code and output)
  is an explicit `Oracle` record, so theorems quantify over every
  environment behaviour, i.e. over every exit path of the code.
* `asyncio.create_subprocess_exec(*cmd, ...)` receives an argument
  *vector* (`List String`), never a joined shell string; the spawned
  invocation is returned as an observable `Invocation` value
  (`none` when the code raises before spawning).
-/

/-- Python exception classes relevant to `tools.py`.  The source raises
`ValueError` and `RuntimeError`; `fileNotFoundError` is Python's builtin
`FileNotFoundError`, which the source never raises; `osError` stands for
the OS-level exceptions that file I/O may raise. -/
inductive PyExc where
  | valueError
  | runtimeError
  | fileNotFoundError
  | osError
deriving DecidableEq, Repr

/-- A raised Python exception: class plus message. -/
structure PyError where
  exc : PyExc
  msg : String
deriving DecidableEq, Repr

/-- A single-quote character as a string (used in the source's f-string
messages). -/
def squot : String := String.singleton (Char.ofNat 39)

/-- `str(Path)` for an absolute path given by its segments:
`"/" + "/".join(segs)`. -/
def segsToString (segs : List String) : String :=
  "/" ++ String.intercalate "/" segs

/-- Python's `repr` of a list of strings, as produced by
`f"{[str(d) for d in self.allowed_directories]}"`. -/
def pyReprStrList (xs : List String) : String :=
  "[" ++ String.intercalate ", " (xs.map (fun x => squot ++ x ++ squot)) ++ "]"

/-- Python truthiness of a string: nonempty. -/
def pyTruthyStr (s : String) : Bool := s ≠ ""

/-- Python truthiness of an optional string (`None` and `""` are falsy). -/
def pyTruthyOptStr : Option String → Bool
  | none => false
  | some s => pyTruthyStr s

/-- Immutable configuration of `GeminiTools`: the resolved gemini binary
path found by `shutil.which` and the resolved allowed directories
(`self.allowed_directories`), each as a segment list. -/
structure Config where
  geminiPath : String
  allowedDirs : List (List String)

/-- The error message of `_validate_file_path` when the path lies outside
every allowed directory (source line 195-198). -/
def outsideMsg (cfg : Config) (filePath : String) : String :=
  "File path " ++ squot ++ filePath ++ squot ++ " is outside allowed directories. " ++
    "Allowed: " ++ pyReprStrList (cfg.allowedDirs.map segsToString)

/-- `GeminiTools._validate_file_path` (tools.py lines 169-198).

`Path(file_path).resolve()` is the oracle `resolve`; if it raises
(`none`), the method raises `ValueError("Invalid file path: ...")`.
Otherwise the method loops over `self.allowed_directories` and returns
the resolved path at the first directory `d` for which
`resolved_path.relative_to(d)` succeeds; `Path.relative_to` succeeds
exactly when `d`'s segments are a (segment-wise) prefix of the resolved
path's segments.  If no directory matches, it raises a `ValueError`
naming the attempted path and the whole allow-list. -/
def validateFilePath (cfg : Config) (resolve : String → Option (List String))
    (filePath : String) : Except PyError (List String) :=
  match resolve filePath with
  | none => .error ⟨.valueError, "Invalid file path: " ++ filePath⟩
  | some resolvedPath =>
    match cfg.allowedDirs.find? (fun d => d.isPrefixOf resolvedPath) with
    | some _ => .ok resolvedPath
    | none => .error ⟨.valueError, outsideMsg cfg filePath⟩

/-- Outcome and environment of one external-process run
(`process.returncode`, `stdout`, `stderr`). -/
structure ProcResult where
  returncode : Int
  stdout : String
  stderr : String

/-- Python's `str.strip()` (no argument): remove leading and trailing
whitespace.  (Python strips a slightly larger Unicode whitespace set;
`Char.isWhitespace` covers the ASCII cases that occur here.) -/
def pyStrip (s : String) : String :=
  ⟨((s.data.dropWhile Char.isWhitespace).reverse.dropWhile Char.isWhitespace).reverse⟩

/-- Python's `str.lower()`, on the ASCII range (`Char.toLower`). -/
def pyLower (s : String) : String := ⟨s.data.map Char.toLower⟩

/-- Whether `needle` occurs as a contiguous sublist of `hay`. -/
def listIsInfixOf (needle : List Char) : List Char → Bool
  | [] => needle.isEmpty
  | c :: rest => needle.isPrefixOf (c :: rest) || listIsInfixOf needle rest

/-- Python's `needle in haystack` on strings. -/
def pyIn (needle hay : String) : Bool := listIsInfixOf needle.data hay.data

/-- The authentication-failure marker phrases checked by
`_run_gemini_command` (tools.py line 273), in source order. -/
def authPhrases : List String :=
  ["not authenticated", "login required", "auth", "credentials"]

/-- The remediation message attached to an authentication error
(tools.py lines 275-278): `f"Gemini CLI authentication error: {error_msg}\n
Please run 'gemini auth login' to authenticate."`. -/
def authErrorMsg (errorMsg : String) : String :=
  "Gemini CLI authentication error: " ++ errorMsg ++ "\n" ++
    "Please run " ++ squot ++ "gemini auth login" ++ squot ++ " to authenticate."

/-- Exit-status handling of `_run_gemini_command` (tools.py lines 263-282):
on exit code 0 return `stdout.decode().strip()`; otherwise let
`error_msg = stderr.decode().strip()` and raise an authentication
`RuntimeError` when any marker phrase occurs in `error_msg.lower()`,
else a generic `RuntimeError` carrying `error_msg`. -/
def classifyProcResult (pr : ProcResult) : Except PyError String :=
  if pr.returncode = 0 then
    .ok (pyStrip pr.stdout)
  else
    let errorMsg := pyStrip pr.stderr
    if authPhrases.any (fun p => pyIn p (pyLower errorMsg)) then
      .error ⟨.runtimeError, authErrorMsg errorMsg⟩
    else
      .error ⟨.runtimeError, "Gemini CLI error: " ++ errorMsg⟩

/-- The filesystem state visible to `_run_gemini_command`: the set of
temporary files currently existing on disk (named by `Nat`; `mkstemp`
draws the next fresh name from the counter `nextTemp`, which only ever
grows, matching `tempfile.mkstemp`'s unique naming) and their contents
(first association wins on lookup). -/
structure World where
  tempFiles : List Nat
  nextTemp : Nat
  contents : List (Nat × String)

/-- `tempfile.mkstemp(...)`: creates a fresh empty file and returns its
name. -/
def mkstemp (w : World) : Nat × World :=
  (w.nextTemp,
    ⟨w.nextTemp :: w.tempFiles, w.nextTemp + 1, (w.nextTemp, "") :: w.contents⟩)

/-- Writing `content` to temp file `name` (the `os.fdopen(fd, "w")`
block). -/
def writeTemp (w : World) (name : Nat) (content : String) : World :=
  { w with contents := (name, content) :: w.contents }

/-- Reading back a temp file's contents (the `aiofiles.open` block). -/
def readTemp (w : World) (name : Nat) : Option String :=
  (w.contents.find? (fun p => p.1 = name)).map (fun p => p.2)

/-- `os.remove(name)`: the file no longer exists afterwards. -/
def removeTemp (w : World) (name : Nat) : World :=
  { w with tempFiles := w.tempFiles.erase name }

/-- `os.path.exists` for temp files. -/
def tempExists (w : World) (name : Nat) : Bool := name ∈ w.tempFiles

/-- The environment a single `_run_gemini_command` call runs against:
`resolve` and `pathExists` model the OS filesystem seen by
`Path.resolve()` / `Path.exists()`; `writeErr` / `readErr` are the
exceptions (if any) raised while writing the temp listing and reading
it back; `removeOk` is whether `os.remove` in the `finally` block
succeeds; `proc` is the external process's behaviour. -/
structure Oracle where
  resolve : String → Option (List String)
  pathExists : List String → Bool
  writeErr : Option PyError
  readErr : Option PyError
  removeOk : Bool
  proc : ProcResult

/-- The per-file loop of `_run_gemini_command` (tools.py lines 228-233):
validate each path, raise `ValueError("File does not exist: ...")` if the
validated path does not exist, and collect `str(validated_path)` in
order.  The first failure aborts the whole loop. -/
def validatePaths (cfg : Config) (o : Oracle) :
    List String → Except PyError (List String)
  | [] => .ok []
  | f :: fs =>
    match validateFilePath cfg o.resolve f with
    | .error e => .error e
    | .ok validatedPath =>
      if o.pathExists validatedPath then
        match validatePaths cfg o fs with
        | .error e => .error e
        | .ok rest => .ok (segsToString validatedPath :: rest)
      else
        .error ⟨.valueError, "File does not exist: " ++ f⟩

/-- The temp-file listing written for the validated paths, one per line
(`f.write(f"{path}\n")` for each path in order). -/
def pathsListing : List String → String
  | [] => ""
  | p :: ps => p ++ "\n" ++ pathsListing ps

/-- One fully-specified external-process call: the argument vector given
to `asyncio.create_subprocess_exec` (one logical argument per element,
never joined into a shell string) and the stdin payload passed to
`process.communicate` (`None` when `stdin_input` is falsy, per
`stdin_input.encode() if stdin_input else None`). -/
structure Invocation where
  argv : List String
  stdinPayload : Option String
deriving DecidableEq, Repr

/-- `communicate`'s `input` argument for a given `stdin_input` value. -/
def stdinPayloadOf : Option String → Option String
  | none => none
  | some s => if s = "" then none else some s

/-- The `finally` block of `_run_gemini_command` (tools.py lines 284-290):
if a temp listing was created and still exists, try to `os.remove` it;
a failure of the removal itself is logged and swallowed. -/
def finallyCleanup (o : Oracle) (tempFileList : Option Nat) (w : World) : World :=
  match tempFileList with
  | none => w
  | some t =>
    if tempExists w t then
      if o.removeOk then removeTemp w t else w
    else w

/-- `GeminiTools._run_gemini_command` (tools.py lines 200-290), as a
function from the initial world to (raised-or-returned result, final
world, the invocation handed to the process spawner — `none` when the
code raises before spawning).

Control flow mirrored from the source: build
`cmd = [gemini_path, "-m", model, "-p", prompt]`; if `files` is truthy
(non-empty), validate every entry and check existence, create the temp
listing with `mkstemp`, write the validated paths one per line, read the
listing back, append `"-a"` to `cmd` and default `stdin_input` to the
listing's contents; spawn the process with `cmd` as an argument vector;
classify the exit status; and in the `finally` block remove the temp
file on every exit path.  `files = []` also covers `files=None`
(`if files:` is false for both). -/
def runGeminiCommand (cfg : Config) (o : Oracle) (prompt : String)
    (model : String) (files : List String) (stdinInput : Option String)
    (w : World) : Except PyError String × World × Option Invocation :=
  let cmd := [cfg.geminiPath, "-m", model, "-p", prompt]
  if files.isEmpty then
    (classifyProcResult o.proc, finallyCleanup o none w,
      some ⟨cmd, stdinPayloadOf stdinInput⟩)
  else
    match validatePaths cfg o files with
    | .error e => (.error e, finallyCleanup o none w, none)
    | .ok validatedPaths =>
      let (t, w₁) := mkstemp w
      match o.writeErr with
      | some e => (.error e, finallyCleanup o (some t) w₁, none)
      | none =>
        let w₂ := writeTemp w₁ t (pathsListing validatedPaths)
        match o.readErr with
        | some e => (.error e, finallyCleanup o (some t) w₂, none)
        | none =>
          let fileListContent := (readTemp w₂ t).getD ""
          let cmd := cmd ++ ["-a"]
          let stdinInput :=
            if pyTruthyOptStr stdinInput then stdinInput
            else some fileListContent
          (classifyProcResult o.proc, finallyCleanup o (some t) w₂,
            some ⟨cmd, stdinPayloadOf stdinInput⟩)

/-- Concrete configuration fixture used by the witnesses below. -/
def cfgW : Config := ⟨"/usr/bin/gemini", [["home", "u"]]⟩

/-- A concrete benign environment: every raw path resolves to
`/home/u/f.txt`, every path exists, no I/O errors, `os.remove`
succeeds, and the process exits 0 printing `" ok "`. -/
def oW : Oracle :=
  ⟨fun _ => some ["home", "u", "f.txt"], fun _ => true, none, none, true,
    ⟨0, " ok ", ""⟩⟩

/-- An initially empty filesystem world. -/
def w0 : World := ⟨[], 0, []⟩

/-- A concrete environment in which every raw path resolves inside the
allow-list but no path exists on the filesystem. -/
def oMiss : Oracle :=
  ⟨fun _ => some ["home", "u", "missing.txt"], fun _ => false, none, none,
    true, ⟨0, "", ""⟩⟩

/-- What a tool handler does with its arguments: either return a string
directly to the caller without touching the external process, or
delegate to `_run_gemini_command` with a finished prompt, model and file
list (the handler returns the runner's result verbatim). -/
inductive ToolOutcome where
  | reply (s : String)
  | call (prompt : String) (model : String) (files : List String)
deriving DecidableEq, Repr

/-- The `arguments` dict of a tool call, restricted to the keys the
summarize/analyze handlers read with `arguments.get(key, default)`
(`none` models an absent key). -/
structure Arguments where
  content : Option String := none
  files : Option (List String) := none
  summaryType : Option String := none
  model : Option String := none
deriving Repr

/-- Default model constant (tools.py line 18). -/
def DEFAULT_GEMINI_MODEL : String := "gemini-2.5-pro"

/-- The `summary_prompts` dict of `_gemini_summarize` (tools.py lines
364-369), as Python's `dict.get`: `some` for the four enumerated keys,
`none` otherwise. -/
def summaryPrompts (key : String) : Option String :=
  if key = "brief" then
    some "Please provide a brief summary of the following content in 2-3 sentences."
  else if key = "detailed" then
    some "Please provide a detailed summary of the following content, covering all main points."
  else if key = "bullet_points" then
    some "Please summarize the following content as bullet points."
  else if key = "executive" then
    some "Please provide an executive summary of the following content suitable for decision makers."
  else none

/-- `GeminiTools._gemini_summarize` (tools.py lines 354-381), which
`call_tool("gemini_summarize", args)` dispatches to directly.  Reads
`content` (default `""`), `files` (default `[]`), `summary_type`
(default `"brief"`), `model` (default `DEFAULT_GEMINI_MODEL`); returns
the literal guidance string when both `content` and `files` are falsy;
picks the prompt via `summary_prompts.get(summary_type,
summary_prompts["brief"])`; and either runs on the content (ignoring
`files`) or on the files. -/
def geminiSummarize (args : Arguments) : ToolOutcome :=
  let content := args.content.getD ""
  let files := args.files.getD []
  let summaryType := args.summaryType.getD "brief"
  let model := args.model.getD DEFAULT_GEMINI_MODEL
  if ¬ pyTruthyStr content ∧ files = [] then
    .reply "Error: Either content or files must be provided for summarization."
  else
    let prompt := (summaryPrompts summaryType).getD
      "Please provide a brief summary of the following content in 2-3 sentences."
    if pyTruthyStr content then
      .call (prompt ++ "\n\nContent:\n" ++ content) model []
    else
      .call prompt model files

/-- The `analysis_prompts` dict of `_gemini_analyze_code` (tools.py
lines 333-339). -/
def analysisPrompts (key : String) : Option String :=
  if key = "review" then
    some "Please review this code and identify potential issues, bugs, or areas for improvement."
  else if key = "explain" then
    some "Please explain what this code does in detail, including its purpose and how it works."
  else if key = "optimize" then
    some "Please suggest optimizations for this code to improve performance, readability, or maintainability."
  else if key = "security" then
    some "Please analyze this code for security vulnerabilities and suggest fixes."
  else if key = "test" then
    some "Please suggest test cases and testing strategies for this code."
  else none

/-- `GeminiTools._gemini_analyze_code` (tools.py lines 326-352).
`files` and `analysis_type` are required keys (`arguments["files"]`,
`arguments["analysis_type"]`) and are therefore plain parameters here;
`specific_question` and `model` are read with `.get` and appear as
options.  The base prompt falls back to `"Please analyze this code."`
when `analysis_type` is not a key of `analysis_prompts`. -/
def geminiAnalyzeCode (files : List String) (analysisType : String)
    (specificQuestion : Option String) (model : Option String) : ToolOutcome :=
  let sq := specificQuestion.getD ""
  let m := model.getD DEFAULT_GEMINI_MODEL
  let basePrompt := (analysisPrompts analysisType).getD "Please analyze this code."
  let prompt :=
    if pyTruthyStr sq then basePrompt ++ "\n\nSpecific question: " ++ sq
    else basePrompt
  .call prompt m files

example : validateFilePath ⟨"/usr/bin/gemini", [["home", "u"]]⟩
    (fun _ => some ["home", "u", "f.txt"]) "/home/u/f.txt" =
    .ok ["home", "u", "f.txt"] := by rfl

example : validateFilePath ⟨"/usr/bin/gemini", [["allowed"]]⟩
    (fun _ => some ["allowed-evil"]) "/allowed-evil" =
    .error ⟨.valueError, outsideMsg ⟨"/usr/bin/gemini", [["allowed"]]⟩ "/allowed-evil"⟩ := by
  rfl

example : classifyProcResult ⟨0, "  hi \n", ""⟩ = .ok "hi" := by rfl

example : classifyProcResult ⟨1, "", "User not AUTHenticated"⟩ =
    .error ⟨.runtimeError, authErrorMsg "User not AUTHenticated"⟩ := by rfl

example : classifyProcResult ⟨1, "", "boom"⟩ =
    .error ⟨.runtimeError, "Gemini CLI error: boom"⟩ := by rfl

/-- Helper: behaviour of `_run_gemini_command` when `files` is empty
(or `None`): the argument vector is exactly the five-element command,
the stdin payload is the (truthiness-filtered) `stdin_input`, the world
is untouched, and the process result is classified. -/
theorem runGeminiCommand_no_files (cfg : Config) (o : Oracle)
    (p m : String) (si : Option String) (w : World) :
    runGeminiCommand cfg o p m [] si w =
      (classifyProcResult o.proc, w,
        some ⟨[cfg.geminiPath, "-m", m, "-p", p], stdinPayloadOf si⟩) := rfl

/-- Helper: a validation failure (path not allowed, invalid path, or
missing file) propagates unchanged, with no temporary file created, no
world change, and no process spawned. -/
theorem runGeminiCommand_validation_error (cfg : Config) (o : Oracle)
    (p m : String) (files : List String) (si : Option String) (w : World)
    (e : PyError) (hf : files.isEmpty = false)
    (hv : validatePaths cfg o files = .error e) :
    runGeminiCommand cfg o p m files si w = (.error e, w, none) := by
  unfold runGeminiCommand
  simp only [hf, Bool.false_eq_true, if_false, hv]
  rfl

/-- Helper: when validation succeeds but writing the temp listing
raises, the raised error propagates and the `finally` block runs on the
world holding the freshly created (empty) temp file. -/
theorem runGeminiCommand_write_error (cfg : Config) (o : Oracle)
    (p m : String) (files : List String) (si : Option String) (w : World)
    (vps : List String) (e : PyError) (hf : files.isEmpty = false)
    (hv : validatePaths cfg o files = .ok vps)
    (hw : o.writeErr = some e) :
    runGeminiCommand cfg o p m files si w =
      (.error e,
       finallyCleanup o (some w.nextTemp)
         ⟨w.nextTemp :: w.tempFiles, w.nextTemp + 1, (w.nextTemp, "") :: w.contents⟩,
       none) := by
  unfold runGeminiCommand
  simp only [hf, Bool.false_eq_true, if_false, hv, mkstemp, hw]

/-- Helper: when validation and the write succeed but reading the temp
listing back raises, the raised error propagates and the `finally`
block runs on the world holding the written temp file. -/
theorem runGeminiCommand_read_error (cfg : Config) (o : Oracle)
    (p m : String) (files : List String) (si : Option String) (w : World)
    (vps : List String) (e : PyError) (hf : files.isEmpty = false)
    (hv : validatePaths cfg o files = .ok vps)
    (hw : o.writeErr = none) (hr : o.readErr = some e) :
    runGeminiCommand cfg o p m files si w =
      (.error e,
       finallyCleanup o (some w.nextTemp)
         ⟨w.nextTemp :: w.tempFiles, w.nextTemp + 1,
          (w.nextTemp, pathsListing vps) :: (w.nextTemp, "") :: w.contents⟩,
       none) := by
  unfold runGeminiCommand
  simp only [hf, Bool.false_eq_true, if_false, hv, mkstemp, hw, hr, writeTemp]

/-- Helper: the fully successful file-bearing path: the listing is
written and read back, `"-a"` is appended as its own argument-vector
slot, the stdin payload is the override if truthy and otherwise the
listing contents, and the `finally` block runs on the world holding the
written temp file. -/
theorem runGeminiCommand_with_files (cfg : Config) (o : Oracle)
    (p m : String) (files : List String) (si : Option String) (w : World)
    (vps : List String) (hf : files.isEmpty = false)
    (hv : validatePaths cfg o files = .ok vps)
    (hw : o.writeErr = none) (hr : o.readErr = none) :
    runGeminiCommand cfg o p m files si w =
      (classifyProcResult o.proc,
       finallyCleanup o (some w.nextTemp)
         ⟨w.nextTemp :: w.tempFiles, w.nextTemp + 1,
          (w.nextTemp, pathsListing vps) :: (w.nextTemp, "") :: w.contents⟩,
       some ⟨[cfg.geminiPath, "-m", m, "-p", p, "-a"],
         stdinPayloadOf
           (if pyTruthyOptStr si then si else some (pathsListing vps))⟩) := by
  unfold runGeminiCommand
  simp only [hf, Bool.false_eq_true, if_false, hv, mkstemp, hw, hr, writeTemp,
    readTemp, List.find?_cons, decide_True, Option.map_some, Option.getD_some]
  rfl

/-- Helper: after the `finally` block, a temp file that was on top of
the temp-file list is gone (when `os.remove` succeeds). -/
theorem finallyCleanup_removes (o : Oracle) (ho : o.removeOk = true)
    (t : Nat) (rest : List Nat) (n : Nat) (c : List (Nat × String)) :
    (finallyCleanup o (some t) ⟨t :: rest, n, c⟩).tempFiles = rest := by
  simp [finallyCleanup, tempExists, removeTemp, ho]

/-- Helper: `validateFilePath` succeeds exactly on the paths whose
resolved form has some allowed directory as a segment-wise ancestor,
and then returns the resolved form. -/
theorem validateFilePath_ok_iff (cfg : Config)
    (resolve : String → Option (List String)) (raw : String)
    (rp : List String) (h : resolve raw = some rp) :
    validateFilePath cfg resolve raw = .ok rp ↔
      ∃ d ∈ cfg.allowedDirs, d <+: rp := by
  unfold validateFilePath
  rw [h]
  dsimp only
  cases hfind : cfg.allowedDirs.find? (fun d => d.isPrefixOf rp) with
  | none =>
    rw [List.find?_eq_none] at hfind
    simp only [reduceCtorEq, false_iff]
    rintro ⟨d, hd, hpre⟩
    exact absurd (List.isPrefixOf_iff_prefix.mpr hpre) (by simpa using hfind d hd)
  | some d =>
    simp only [true_iff]
    exact ⟨d, List.mem_of_find?_eq_some hfind,
      List.isPrefixOf_iff_prefix.mp (by simpa using List.find?_some hfind)⟩

/-- Helper: when no allowed directory is an ancestor of the resolved
form, `validateFilePath` raises the `ValueError` naming the attempted
path and the full allow-list. -/
theorem validateFilePath_err (cfg : Config)
    (resolve : String → Option (List String)) (raw : String)
    (rp : List String) (h : resolve raw = some rp)
    (hout : ¬ ∃ d ∈ cfg.allowedDirs, d <+: rp) :
    validateFilePath cfg resolve raw = .error ⟨.valueError, outsideMsg cfg raw⟩ := by
  unfold validateFilePath
  rw [h]
  dsimp only
  cases hfind : cfg.allowedDirs.find? (fun d => d.isPrefixOf rp) with
  | none => rfl
  | some d =>
    exact absurd ⟨d, List.mem_of_find?_eq_some hfind,
      List.isPrefixOf_iff_prefix.mp (by simpa using List.find?_some hfind)⟩ hout

/-- C1: Path validation succeeds, returning the canonicalized (resolved)
form, exactly when the resolved form of the raw path is equal to or a
descendant of at least one allowed directory — containment being the
segment-wise ancestor relation (`<+:` on segment lists), never string
prefix, so a root `/allowed` does not admit `/allowed-evil` — and
otherwise fails with the `ValueError` naming the attempted path and the
full allow-list. -/
theorem c1_path_validation (cfg : Config)
    (resolve : String → Option (List String)) (raw : String)
    (rp : List String) (h : resolve raw = some rp) :
    (validateFilePath cfg resolve raw = .ok rp ↔
      ∃ d ∈ cfg.allowedDirs, d <+: rp)
    ∧ ((¬ ∃ d ∈ cfg.allowedDirs, d <+: rp) →
        validateFilePath cfg resolve raw =
          .error ⟨.valueError, outsideMsg cfg raw⟩)
    ∧ validateFilePath ⟨"/usr/bin/gemini", [["allowed"]]⟩
        (fun _ => some ["allowed-evil"]) "/allowed-evil" =
        .error ⟨.valueError,
          outsideMsg ⟨"/usr/bin/gemini", [["allowed"]]⟩ "/allowed-evil"⟩ :=
  ⟨validateFilePath_ok_iff cfg resolve raw rp h,
   fun hout => validateFilePath_err cfg resolve raw rp h hout,
   by rfl⟩

/-- Witness for C1 at a concrete allow-list and path. -/
theorem c1_path_validation_witness :
    (validateFilePath cfgW (fun _ => some ["home", "u", "f.txt"])
        "/home/u/f.txt" = .ok ["home", "u", "f.txt"] ↔
      ∃ d ∈ cfgW.allowedDirs, d <+: ["home", "u", "f.txt"])
    ∧ ((¬ ∃ d ∈ cfgW.allowedDirs, d <+: ["home", "u", "f.txt"]) →
        validateFilePath cfgW (fun _ => some ["home", "u", "f.txt"])
          "/home/u/f.txt" =
          .error ⟨.valueError, outsideMsg cfgW "/home/u/f.txt"⟩)
    ∧ validateFilePath ⟨"/usr/bin/gemini", [["allowed"]]⟩
        (fun _ => some ["allowed-evil"]) "/allowed-evil" =
        .error ⟨.valueError,
          outsideMsg ⟨"/usr/bin/gemini", [["allowed"]]⟩ "/allowed-evil"⟩ :=
  c1_path_validation cfgW (fun _ => some ["home", "u", "f.txt"])
    "/home/u/f.txt" ["home", "u", "f.txt"] rfl

/-- C2: For every file-bearing invocation (non-empty `files`) and every
environment behaviour — path-validation failure, missing file, I/O
error while writing or reading back the listing, nonzero process exit,
or normal completion — the temporary listing file no longer exists on
disk once `_run_gemini_command` returns or raises (assuming the
`os.remove` syscall in the `finally` block itself succeeds): the final
set of temp files equals the initial one, so in particular the fresh
name used by this invocation is absent at exit. -/
theorem c2_temp_file_cleanup (cfg : Config) (o : Oracle) (p m : String)
    (files : List String) (si : Option String) (w : World)
    (hf : files ≠ []) (ho : o.removeOk = true) :
    ((runGeminiCommand cfg o p m files si w).2.1).tempFiles = w.tempFiles
    ∧ (w.nextTemp ∉ w.tempFiles →
        w.nextTemp ∉ ((runGeminiCommand cfg o p m files si w).2.1).tempFiles) := by
  have hfe : files.isEmpty = false := by simpa [List.isEmpty_iff] using hf
  have hmain :
      ((runGeminiCommand cfg o p m files si w).2.1).tempFiles = w.tempFiles := by
    cases hv : validatePaths cfg o files with
    | error e =>
      rw [runGeminiCommand_validation_error cfg o p m files si w e hfe hv]
    | ok vps =>
      cases hw : o.writeErr with
      | some e =>
        rw [runGeminiCommand_write_error cfg o p m files si w vps e hfe hv hw]
        exact finallyCleanup_removes o ho _ _ _ _
      | none =>
        cases hr : o.readErr with
        | some e =>
          rw [runGeminiCommand_read_error cfg o p m files si w vps e hfe hv hw hr]
          exact finallyCleanup_removes o ho _ _ _ _
        | none =>
          rw [runGeminiCommand_with_files cfg o p m files si w vps hfe hv hw hr]
          exact finallyCleanup_removes o ho _ _ _ _
  exact ⟨hmain, fun hn => by rw [hmain]; exact hn⟩

/-- Witness for C2 on a concrete file-bearing run. -/
theorem c2_temp_file_cleanup_witness :
    ((runGeminiCommand cfgW oW "p" "m" ["/home/u/f.txt"] none w0).2.1).tempFiles
        = w0.tempFiles
    ∧ (w0.nextTemp ∉ w0.tempFiles →
        w0.nextTemp ∉
          ((runGeminiCommand cfgW oW "p" "m" ["/home/u/f.txt"] none w0).2.1).tempFiles) :=
  c2_temp_file_cleanup cfgW oW "p" "m" ["/home/u/f.txt"] none w0
    (by simp) rfl

/-- C3: On exit code 0 the runner returns the captured stdout stripped
of leading and trailing whitespace; on nonzero exit whose (stripped)
stderr, lowercased, contains one of the markers "not authenticated",
"login required", "auth", "credentials", it raises the
authentication-classified `RuntimeError` carrying the remediation
guidance; on nonzero exit without such a marker it raises the generic
`RuntimeError` carrying the stderr text. -/
theorem c3_exit_classification (pr : ProcResult) :
    (pr.returncode = 0 → classifyProcResult pr = .ok (pyStrip pr.stdout))
    ∧ (pr.returncode ≠ 0 →
        (authPhrases.any (fun p => pyIn p (pyLower (pyStrip pr.stderr))) = true →
          classifyProcResult pr =
            .error ⟨.runtimeError, authErrorMsg (pyStrip pr.stderr)⟩)
        ∧ (authPhrases.any (fun p => pyIn p (pyLower (pyStrip pr.stderr))) = false →
          classifyProcResult pr =
            .error ⟨.runtimeError, "Gemini CLI error: " ++ pyStrip pr.stderr⟩)) := by
  unfold classifyProcResult
  refine ⟨fun h => by simp [h], fun h => ⟨fun ha => ?_, fun ha => ?_⟩⟩
  · simp [h, ha]
  · simp [h, ha]

/-- Witness for C3: one concrete process result per classification case. -/
theorem c3_exit_classification_witness :
    classifyProcResult ⟨0, "  out \n", ""⟩ = .ok "out"
    ∧ classifyProcResult ⟨1, "", " User not authenticated "⟩ =
        .error ⟨.runtimeError, authErrorMsg "User not authenticated"⟩
    ∧ classifyProcResult ⟨1, "", "boom"⟩ =
        .error ⟨.runtimeError, "Gemini CLI error: boom"⟩ :=
  ⟨(c3_exit_classification ⟨0, "  out \n", ""⟩).1 rfl,
   ((c3_exit_classification ⟨1, "", " User not authenticated "⟩).2
      (by decide)).1 (by rfl),
   ((c3_exit_classification ⟨1, "", "boom"⟩).2 (by decide)).2 (by rfl)⟩

/-- C4: Every invocation handed to the process spawner is an argument
*vector* (a `List String`, never a string joined for a shell): slot 0
is the binary path, slot 1 `"-m"`, slot 2 the model, slot 3 `"-p"`,
slot 4 the prompt verbatim (whatever shell metacharacters it contains),
followed by `"-a"` exactly when files were attached; in particular the
prompt occupies exactly the single slot at index 4. -/
theorem c4_argument_vector (cfg : Config) (o : Oracle) (p m : String)
    (files : List String) (si : Option String) (w : World) (inv : Invocation)
    (h : (runGeminiCommand cfg o p m files si w).2.2 = some inv) :
    inv.argv = [cfg.geminiPath, "-m", m, "-p", p] ++
      (if files.isEmpty then [] else ["-a"])
    ∧ inv.argv[4]? = some p := by
  by_cases hfe : files.isEmpty
  · have hnil : files = [] := List.isEmpty_iff.mp hfe
    subst hnil
    rw [runGeminiCommand_no_files] at h
    simp only [Option.some.injEq] at h
    subst h
    exact ⟨rfl, rfl⟩
  · have hfe' : files.isEmpty = false := by simpa using hfe
    cases hv : validatePaths cfg o files with
    | error e =>
      rw [runGeminiCommand_validation_error cfg o p m files si w e hfe' hv] at h
      simp at h
    | ok vps =>
      cases hw : o.writeErr with
      | some e =>
        rw [runGeminiCommand_write_error cfg o p m files si w vps e hfe' hv hw] at h
        simp at h
      | none =>
        cases hr : o.readErr with
        | some e =>
          rw [runGeminiCommand_read_error cfg o p m files si w vps e hfe' hv hw hr] at h
          simp at h
        | none =>
          rw [runGeminiCommand_with_files cfg o p m files si w vps hfe' hv hw hr] at h
          simp only [Option.some.injEq] at h
          subst h
          refine ⟨?_, rfl⟩
          simp [hfe']

/-- Witness for C4: a prompt full of shell metacharacters sits verbatim
in the single argument-vector slot at index 4. -/
theorem c4_argument_vector_witness :
    (⟨["/usr/bin/gemini", "-m", "m", "-p", "$(whoami); rm -rf /"], none⟩ :
        Invocation).argv =
      [cfgW.geminiPath, "-m", "m", "-p", "$(whoami); rm -rf /"] ++
        (if ([] : List String).isEmpty then [] else ["-a"])
    ∧ (⟨["/usr/bin/gemini", "-m", "m", "-p", "$(whoami); rm -rf /"], none⟩ :
        Invocation).argv[4]? = some "$(whoami); rm -rf /" :=
  c4_argument_vector cfgW oW "$(whoami); rm -rf /" "m" [] none w0
    ⟨["/usr/bin/gemini", "-m", "m", "-p", "$(whoami); rm -rf /"], none⟩ rfl

/-- Helper: the missing-file message can never coincide with a
path-containment message (they differ already in their fixed prefixes,
`"File does not exist: "` vs `"File path '"`). -/
theorem missing_ne_outside (cfg : Config) (f g : String) :
    ("File does not exist: " ++ f : String) ≠ outsideMsg cfg g := by
  intro h
  have hd := congrArg (fun s : String => s.data.take 6) h
  simp only [outsideMsg, String.data_append, List.append_assoc] at hd
  rw [List.take_append_of_le_length (by decide),
    List.take_append_of_le_length (by decide)] at hd
  exact absurd hd (by decide)

/-- Helper: the `finally` block never touches file contents, only the
set of existing files. -/
theorem finallyCleanup_contents (o : Oracle) (tf : Option Nat) (w : World) :
    (finallyCleanup o tf w).contents = w.contents := by
  unfold finallyCleanup
  cases tf with
  | none => rfl
  | some t =>
    dsimp only
    split
    · split <;> rfl
    · rfl

/-- Helper: a successful validation produces one validated path per
input file. -/
theorem validatePaths_length (cfg : Config) (o : Oracle) :
    ∀ files vps, validatePaths cfg o files = .ok vps →
      vps.length = files.length := by
  intro files
  induction files with
  | nil =>
    intro vps hv
    simp only [validatePaths, Except.ok.injEq] at hv
    simp [← hv]
  | cons f fs ih =>
    intro vps hv
    simp only [validatePaths] at hv
    cases hval : validateFilePath cfg o.resolve f with
    | error e => rw [hval] at hv; simp at hv
    | ok vp =>
      rw [hval] at hv
      dsimp only at hv
      by_cases hex : o.pathExists vp = true
      · rw [if_pos hex] at hv
        cases hrec : validatePaths cfg o fs with
        | error e => rw [hrec] at hv; simp at hv
        | ok rest =>
          rw [hrec] at hv
          simp only [Except.ok.injEq] at hv
          subst hv
          simp [ih rest hrec]
      · rw [if_neg hex] at hv; simp at hv

/-- Helper: the listing written for at least one path is never the
empty string (every path contributes a trailing newline). -/
theorem pathsListing_ne_empty (v : String) (rest : List String) :
    pathsListing (v :: rest) ≠ "" := by
  intro h
  have hlen := congrArg (fun s : String => s.data.length) h
  simp only [pathsListing, String.data_append, List.length_append,
    List.length_cons, List.length_nil] at hlen
  omega

/-- C5 counterexample: at a concrete file-bearing call whose (allowed,
resolvable) file does not exist, the raised error is a `ValueError` —
the same Python exception class as the path-containment failure — not a
`FileNotFoundError` as the claim states. -/
theorem c5_missing_file_class_counterexample :
    (runGeminiCommand cfgW oMiss "p" "m" ["/home/u/missing.txt"] none w0).1 =
      .error ⟨.valueError, "File does not exist: /home/u/missing.txt"⟩
    ∧ PyExc.valueError ≠ PyExc.fileNotFoundError :=
  ⟨rfl, by decide⟩

/-- C5 (amended): For every non-empty files list on which validation
fails — path outside the allow-list or file missing — the failure
happens before any temporary file is created: the error propagates
unchanged, the filesystem world is untouched, and no invocation is
built.  A validated-but-missing head entry produces the `ValueError`
`"File does not exist: <path>"`, whose message is distinct from every
path-containment message. -/
theorem c5_failfast_validation (cfg : Config) (o : Oracle) (p m : String)
    (files : List String) (si : Option String) (w : World) (e : PyError)
    (hf : files.isEmpty = false)
    (hv : validatePaths cfg o files = .error e) :
    runGeminiCommand cfg o p m files si w = (.error e, w, none)
    ∧ (∀ f fs vp, files = f :: fs →
        validateFilePath cfg o.resolve f = .ok vp →
        o.pathExists vp = false →
        e = ⟨.valueError, "File does not exist: " ++ f⟩)
    ∧ (∀ f g : String,
        ("File does not exist: " ++ f : String) ≠ outsideMsg cfg g) := by
  refine ⟨runGeminiCommand_validation_error cfg o p m files si w e hf hv,
    ?_, fun f g => missing_ne_outside cfg f g⟩
  rintro f fs vp rfl hval hex
  simp only [validatePaths, hval, hex] at hv
  simp only [Bool.false_eq_true, if_false, Except.error.injEq] at hv
  exact hv.symm

/-- Witness for C5 (amended) on a concrete missing file. -/
theorem c5_failfast_validation_witness :
    runGeminiCommand cfgW oMiss "p" "m" ["/home/u/missing.txt"] none w0 =
      (.error ⟨.valueError, "File does not exist: /home/u/missing.txt"⟩, w0, none)
    ∧ (∀ f fs vp, ["/home/u/missing.txt"] = f :: fs →
        validateFilePath cfgW oMiss.resolve f = .ok vp →
        oMiss.pathExists vp = false →
        (⟨.valueError, "File does not exist: /home/u/missing.txt"⟩ : PyError) =
          ⟨.valueError, "File does not exist: " ++ f⟩)
    ∧ (∀ f g : String,
        ("File does not exist: " ++ f : String) ≠ outsideMsg cfgW g) :=
  c5_failfast_validation cfgW oMiss "p" "m" ["/home/u/missing.txt"] none w0
    ⟨.valueError, "File does not exist: /home/u/missing.txt"⟩ rfl rfl

/-- C6 counterexample: with `files` empty but an explicit stdin
override supplied, the child process *is* sent a standard-input
payload, contradicting the claim's "no standard-input payload sent"
for every call with empty `files`. -/
theorem c6_stdin_override_counterexample :
    (runGeminiCommand cfgW oW "p" "m" [] (some "x") w0).2.2 =
      some ⟨["/usr/bin/gemini", "-m", "m", "-p", "p"], some "x"⟩
    ∧ (some "x" : Option String) ≠ none :=
  ⟨rfl, by decide⟩

/-- C6 (amended): For every call with `files` empty or absent, the
constructed invocation is exactly
`[binaryPath, "-m", model, "-p", prompt]`, and no standard-input
payload is sent unless the caller supplied a truthy `stdin_input`
override, in which case the override is sent; in particular with no
override the payload is `None`. -/
theorem c6_no_files_invocation (cfg : Config) (o : Oracle) (p m : String)
    (si : Option String) (w : World) :
    (runGeminiCommand cfg o p m [] si w).2.2 =
      some ⟨[cfg.geminiPath, "-m", m, "-p", p], stdinPayloadOf si⟩
    ∧ (si = none →
        (runGeminiCommand cfg o p m [] si w).2.2 =
          some ⟨[cfg.geminiPath, "-m", m, "-p", p], none⟩) := by
  refine ⟨by rw [runGeminiCommand_no_files], fun hsi => ?_⟩
  subst hsi
  rw [runGeminiCommand_no_files]
  rfl

/-- Witness for C6 (amended) at a concrete override-free call. -/
theorem c6_no_files_invocation_witness :
    (runGeminiCommand cfgW oW "p" "m" [] none w0).2.2 =
      some ⟨[cfgW.geminiPath, "-m", "m", "-p", "p"], stdinPayloadOf none⟩
    ∧ (none = (none : Option String) →
        (runGeminiCommand cfgW oW "p" "m" [] none w0).2.2 =
          some ⟨[cfgW.geminiPath, "-m", "m", "-p", "p"], none⟩) :=
  c6_no_files_invocation cfgW oW "p" "m" none w0

/-- C7: For every non-empty, fully valid files list (and no I/O
failure), the runner writes the validated canonical paths one per line
into the freshly created temp file named by the current fresh counter,
appends `"-a"` as its own argument-vector element, and uses the
listing's contents as the stdin payload — unless a truthy explicit
override was supplied, which takes precedence. -/
theorem c7_file_listing (cfg : Config) (o : Oracle) (p m : String)
    (files : List String) (si : Option String) (w : World)
    (vps : List String) (hf : files.isEmpty = false)
    (hv : validatePaths cfg o files = .ok vps)
    (hw : o.writeErr = none) (hr : o.readErr = none) :
    readTemp (runGeminiCommand cfg o p m files si w).2.1 w.nextTemp =
      some (pathsListing vps)
    ∧ Option.map Invocation.argv (runGeminiCommand cfg o p m files si w).2.2 =
        some [cfg.geminiPath, "-m", m, "-p", p, "-a"]
    ∧ (∀ s, si = some s → s ≠ "" →
        Option.map Invocation.stdinPayload
          (runGeminiCommand cfg o p m files si w).2.2 = some (some s))
    ∧ (si = none →
        Option.map Invocation.stdinPayload
          (runGeminiCommand cfg o p m files si w).2.2 =
          some (some (pathsListing vps))) := by
  have hvne : vps ≠ [] := by
    have hlen := validatePaths_length cfg o files vps hv
    intro hnil
    rw [hnil] at hlen
    cases hfiles : files with
    | nil => rw [hfiles] at hf; simp at hf
    | cons a l => rw [hfiles] at hlen; simp at hlen
  have hlne : pathsListing vps ≠ "" := by
    cases vps with
    | nil => exact absurd rfl hvne
    | cons v rest => exact pathsListing_ne_empty v rest
  rw [runGeminiCommand_with_files cfg o p m files si w vps hf hv hw hr]
  refine ⟨?_, rfl, ?_, ?_⟩
  · unfold readTemp
    rw [finallyCleanup_contents]
    rw [List.find?_cons_of_pos _ (by simp)]
    rfl
  · rintro s rfl hs
    simp only [Option.map_some]
    have : pyTruthyOptStr (some s) = true := by
      simp [pyTruthyOptStr, pyTruthyStr, hs]
    rw [if_pos this]
    simp [stdinPayloadOf, hs]
  · rintro rfl
    simp only [Option.map_some]
    rw [if_neg (by simp [pyTruthyOptStr])]
    simp [stdinPayloadOf, hlne]

/-- Witness for C7 on a concrete single-file run. -/
theorem c7_file_listing_witness :
    readTemp (runGeminiCommand cfgW oW "p" "m" ["/home/u/f.txt"] none w0).2.1
        w0.nextTemp = some (pathsListing ["/home/u/f.txt"])
    ∧ Option.map Invocation.argv
        (runGeminiCommand cfgW oW "p" "m" ["/home/u/f.txt"] none w0).2.2 =
        some [cfgW.geminiPath, "-m", "m", "-p", "p", "-a"]
    ∧ (∀ s, (none : Option String) = some s → s ≠ "" →
        Option.map Invocation.stdinPayload
          (runGeminiCommand cfgW oW "p" "m" ["/home/u/f.txt"] none w0).2.2 =
          some (some s))
    ∧ ((none : Option String) = none →
        Option.map Invocation.stdinPayload
          (runGeminiCommand cfgW oW "p" "m" ["/home/u/f.txt"] none w0).2.2 =
          some (some (pathsListing ["/home/u/f.txt"]))) :=
  c7_file_listing cfgW oW "p" "m" ["/home/u/f.txt"] none w0
    ["/home/u/f.txt"] rfl rfl rfl rfl

/-- C8: Dispatching the summarize tool with neither content nor files
returns the user-facing guidance string as an ordinary return value —
the outcome is a `reply`, never a delegation to the external process,
and no error is raised (the handler total-returns). -/
theorem c8_summarize_missing_input :
    geminiSummarize {} =
      .reply "Error: Either content or files must be provided for summarization."
    ∧ ∀ p m fs, geminiSummarize {} ≠ .call p m fs :=
  ⟨rfl, fun _ _ _ h => ToolOutcome.noConfusion h⟩

/-- Witness for C8 at one concrete delegation target. -/
theorem c8_summarize_missing_input_witness :
    geminiSummarize {} =
      .reply "Error: Either content or files must be provided for summarization."
    ∧ geminiSummarize {} ≠ .call "p" "m" [] :=
  ⟨c8_summarize_missing_input.1, c8_summarize_missing_input.2 "p" "m" []⟩

/-- Helper: evaluation of the summarize handler when `content` is
truthy: it always delegates on the content with an empty files list. -/
theorem geminiSummarize_content (args : Arguments)
    (h : pyTruthyStr (args.content.getD "") = true) :
    geminiSummarize args =
      .call ((summaryPrompts (args.summaryType.getD "brief")).getD
          "Please provide a brief summary of the following content in 2-3 sentences."
          ++ "\n\nContent:\n" ++ args.content.getD "")
        (args.model.getD DEFAULT_GEMINI_MODEL) [] := by
  unfold geminiSummarize
  rw [if_neg (by simp [h]), if_pos h]

/-- C9: When both a non-empty content string and a files list are
supplied to summarize, only the content is used: the handler delegates
with an empty files list, the result does not depend on the `files`
argument at all, and the resulting file-less run performs no validation
and leaves the filesystem world (hence any temp files) untouched. -/
theorem c9_content_overrides_files (args : Arguments)
    (h : args.content.getD "" ≠ "") :
    geminiSummarize args =
      .call ((summaryPrompts (args.summaryType.getD "brief")).getD
          "Please provide a brief summary of the following content in 2-3 sentences."
          ++ "\n\nContent:\n" ++ args.content.getD "")
        (args.model.getD DEFAULT_GEMINI_MODEL) []
    ∧ (∀ fs, geminiSummarize { args with files := fs } = geminiSummarize args)
    ∧ (∀ (cfg : Config) (o : Oracle) (p m : String) (si : Option String)
        (w : World), (runGeminiCommand cfg o p m [] si w).2.1 = w) := by
  have hguard : pyTruthyStr (args.content.getD "") = true := by
    simp [pyTruthyStr, h]
  refine ⟨geminiSummarize_content args hguard, ?_, ?_⟩
  · intro fs
    rw [geminiSummarize_content args hguard,
      geminiSummarize_content { args with files := fs } hguard]
  · intro cfg o p m si w
    rw [runGeminiCommand_no_files]

/-- Witness for C9 with both content and files supplied. -/
theorem c9_content_overrides_files_witness :
    geminiSummarize ⟨some "hello", some ["/x"], none, none⟩ =
      .call ((summaryPrompts "brief").getD
          "Please provide a brief summary of the following content in 2-3 sentences."
          ++ "\n\nContent:\n" ++ "hello")
        DEFAULT_GEMINI_MODEL []
    ∧ (∀ fs, geminiSummarize
        { (⟨some "hello", some ["/x"], none, none⟩ : Arguments) with files := fs } =
        geminiSummarize ⟨some "hello", some ["/x"], none, none⟩)
    ∧ (∀ (cfg : Config) (o : Oracle) (p m : String) (si : Option String)
        (w : World), (runGeminiCommand cfg o p m [] si w).2.1 = w) :=
  c9_content_overrides_files ⟨some "hello", some ["/x"], none, none⟩
    (by decide)

/-- C10: An `analysis_type` outside the five enumerated values does not
make the dispatcher fail: the handler falls back to the generic base
prompt `"Please analyze this code."` and still delegates to the
external process with the given files; likewise a `summary_type`
outside its enumeration falls back to the brief template. -/
theorem c10_enum_fallback (files : List String) (t st : String)
    (m : Option String) (c : String)
    (ht : t ∉ ["review", "explain", "optimize", "security", "test"])
    (hs : st ∉ ["brief", "detailed", "bullet_points", "executive"])
    (hc : c ≠ "") :
    geminiAnalyzeCode files t none m =
      .call "Please analyze this code." (m.getD DEFAULT_GEMINI_MODEL) files
    ∧ geminiSummarize ⟨some c, none, some st, m⟩ =
      .call ("Please provide a brief summary of the following content in 2-3 sentences."
          ++ "\n\nContent:\n" ++ c) (m.getD DEFAULT_GEMINI_MODEL) [] := by
  simp only [List.mem_cons, List.not_mem_nil, not_or, or_false] at ht hs
  obtain ⟨ht1, ht2, ht3, ht4, ht5⟩ := ht
  obtain ⟨hs1, hs2, hs3, hs4⟩ := hs
  have hta : analysisPrompts t = none := by
    simp [analysisPrompts, ht1, ht2, ht3, ht4, ht5]
  have hsa : summaryPrompts st = none := by
    simp [summaryPrompts, hs1, hs2, hs3, hs4]
  constructor
  · unfold geminiAnalyzeCode
    rw [hta]
    rfl
  · unfold geminiSummarize
    simp only [Option.getD_some, Option.getD_none, hsa]
    rw [if_neg (by simp [pyTruthyStr, hc]), if_pos (by simp [pyTruthyStr, hc])]

/-- Witness for C10 at concrete out-of-enumeration type strings. -/
theorem c10_enum_fallback_witness :
    geminiAnalyzeCode ["/x"] "bogus" none none =
      .call "Please analyze this code." DEFAULT_GEMINI_MODEL ["/x"]
    ∧ geminiSummarize ⟨some "hello", none, some "weird", none⟩ =
      .call ("Please provide a brief summary of the following content in 2-3 sentences."
          ++ "\n\nContent:\n" ++ "hello") DEFAULT_GEMINI_MODEL [] :=
  c10_enum_fallback ["/x"] "bogus" "weird" none "hello"
    (by decide) (by decide) (by decide)
